import Mathlib

/-!
Shallow embedding of the `kataras/rewrite` Go package (rewrite engine:
rule compilation, subdomain canonicalization, per-request evaluation),
together with theorems checking its natural-language specification.

Go's `regexp` standard library is an external collaborator: a compiled
regular expression is modelled abstractly as a pair of functions
(`matchString`, `replaceAllString`), and the rule compiler is
parameterized by a `compile : String → Regexp` oracle standing for
`regexp.MustCompile`.  Concrete instances used in witnesses and
counterexamples faithfully model Go's behaviour for metacharacter-free
(literal) patterns.
-/

/-- Whitespace recognizer of Go `strings.TrimSpace` (ASCII part: space,
tab, newline, vertical tab, form feed, carriage return). -/
def goIsSpace (c : Char) : Bool :=
  c = ' ' || c = '\t' || c = '\n' || c = Char.ofNat 11 || c = Char.ofNat 12 || c = '\r'

/-- Trim `goIsSpace` characters from both ends of a character list. -/
def trimList (l : List Char) : List Char :=
  ((l.dropWhile goIsSpace).reverse.dropWhile goIsSpace).reverse

/-- Models Go `strings.TrimSpace` (on ASCII input). -/
def trimSpace (s : String) : String :=
  ⟨trimList s.data⟩

/-- Models Go `strings.Split(·, sep)` for a one-character separator `sep`:
splits at every occurrence, keeping empty fields. -/
def splitChar (sep : Char) : List Char → List (List Char)
  | [] => [[]]
  | c :: t =>
    if c = sep then [] :: splitChar sep t
    else
      match splitChar sep t with
      | [] => [[c]]
      | h :: r => (c :: h) :: r

/-- Models Go `strings.Split(s, " ")`. -/
def splitSpace (s : String) : List String :=
  (splitChar ' ' s.data).map (fun l => ⟨l⟩)

/-- Models Go `isDigit` from the source: `'0' <= ch && ch <= '9'`. -/
def isDigit (ch : Char) : Bool :=
  '0' ≤ ch && ch ≤ '9'

/-- Models Go `strings.HasPrefix`. -/
def hasPre (s pre : String) : Bool :=
  pre.data.isPrefixOf s.data

/-- Models Go `strings.HasSuffix`. -/
def hasSuf (s suf : String) : Bool :=
  suf.data.isSuffixOf s.data

/-- Models Go `strings.TrimPrefix`: drop `pre` from the front of `s` when present. -/
def stripPre (s pre : String) : String :=
  if hasPre s pre then ⟨s.data.drop pre.data.length⟩ else s

/-- Models Go `strings.TrimSuffix`: drop `suf` from the end of `s` when present. -/
def stripSuf (s suf : String) : String :=
  if hasSuf s suf then ⟨s.data.take (s.data.length - suf.data.length)⟩ else s

/-- Models Go `strconv.Atoi` restricted to the digit-only strings it is called
on in `parseRedirectMatchLine`: the empty string and values exceeding the
64-bit signed range are errors, everything else is the decimal value. -/
def atoiDigits (s : String) : Option Int :=
  if s = "" then none
  else
    let n := s.data.foldl (fun acc c => acc * 10 + (c.toNat - 48)) 0
    if n ≤ 9223372036854775807 then some (Int.ofNat n) else none

/-- Abstract model of a compiled Go `*regexp.Regexp`: its two observable
operations used by the source, `MatchString` and `ReplaceAllString`
(the second argument of `replaceAllString` is the replacement template). -/
structure Regexp where
  matchString : String → Bool
  replaceAllString : String → String → String

instance : Inhabited Regexp :=
  ⟨⟨fun _ => false, fun s _ => s⟩⟩

/-- `containsSub needle hay` decides whether `needle` occurs as a contiguous
substring of `hay` (both as character lists). -/
def containsSub (needle : List Char) : List Char → Bool
  | [] => needle.isEmpty
  | c :: t => needle.isPrefixOf (c :: t) || containsSub needle t

/-- Fuel-indexed worker for `replaceAllLit`; each step consumes at least one
character and one unit of fuel, so fuel `l.length` is always sufficient. -/
def replaceAllLitF (needle repl : List Char) : Nat → List Char → List Char
  | 0, l => l
  | _ + 1, [] => []
  | f + 1, c :: t =>
    if needle ≠ [] ∧ needle.isPrefixOf (c :: t) then
      repl ++ replaceAllLitF needle repl f (t.drop (needle.length - 1))
    else
      c :: replaceAllLitF needle repl f t

/-- Leftmost non-overlapping replacement of every occurrence of `needle` by
`repl`, as Go `regexp.ReplaceAllString` performs on a literal pattern. -/
def replaceAllLit (needle repl l : List Char) : List Char :=
  replaceAllLitF needle repl l.length l

/-- Fuel-indexed worker for `dropDollarRefs` (fuel `l.length` suffices). -/
def dropDollarRefsF : Nat → List Char → List Char
  | 0, l => l
  | _ + 1, [] => []
  | f + 1, '$' :: t =>
    if (t.takeWhile Char.isDigit) = [] then '$' :: dropDollarRefsF f t
    else dropDollarRefsF f (t.dropWhile Char.isDigit)
  | f + 1, c :: t => c :: dropDollarRefsF f t

/-- Template expansion for a pattern with no capture groups: Go's
`ReplaceAllString` expands `$n` references, and a reference to a group the
pattern does not have expands to the empty string.  Only numeric references
are modelled (the only kind appearing in this development). -/
def dropDollarRefs (l : List Char) : List Char :=
  dropDollarRefsF l.length l

/-- Faithful model of `regexp.MustCompile` on a metacharacter-free pattern
`lit`: it matches a string iff `lit` occurs as a substring, and
`ReplaceAllString` rewrites each leftmost non-overlapping occurrence to the
expansion of the template (in which every `$n` reference is out of range,
since a literal pattern has no capture groups, hence expands empty). -/
def regexpLit (lit : String) : Regexp where
  matchString := fun s => containsSub lit.data s.data
  replaceAllString := fun src repl =>
    ⟨replaceAllLit lit.data (dropDollarRefs repl.data) src.data⟩

/-- The distinct failure modes of `parseRedirectMatchLine` in the source:
wrong token count, a non-digit in the status code, `strconv.Atoi` failure,
the self-loop check, and the (would-be) out-of-range index `pattern[0]`
on an empty pattern, which in Go would be a runtime panic. -/
inductive ParseErr where
  | malformedLine
  | invalidStatusCode
  | atoiFailed
  | redirectLoop
  | outOfRange
deriving DecidableEq, Repr

/-- Model of the Go struct `redirectMatch`. -/
structure redirectMatch where
  code : Int
  pattern : Regexp
  target : String
  isRelativePattern : Bool
  noRedirect : Bool

instance : Inhabited redirectMatch :=
  ⟨⟨0, default, "", false, false⟩⟩

/-- Models `redirectMatch.matchAndReplace` from the source: if the pattern
matches `src` and the replacement is non-empty, return it with `true`,
otherwise return `("", false)`. -/
def redirectMatch.matchAndReplace (r : redirectMatch) (src : String) : String × Bool :=
  if r.pattern.matchString src then
    let m := r.pattern.replaceAllString src r.target
    if m ≠ "" then (m, true) else ("", false)
  else ("", false)

/-- The stages of `parseRedirectMatchLine` after tokenization, on the three
tokens `codeStr`, `pat`, `tgt`: digit check, `Atoi`, the loop check against
the literal target, then construction of the `redirectMatch` (whose
`isRelativePattern` field reads `pattern[0]`, an out-of-range access when the
pattern token is empty). -/
def parseParts (compile : String → Regexp) (codeStr pat tgt : String) :
    Except ParseErr redirectMatch :=
  if codeStr.data.all isDigit then
    match atoiDigits codeStr with
    | none => .error .atoiFailed
    | some code =>
      if (compile pat).matchString tgt then .error .redirectLoop
      else
        match pat.data with
        | [] => .error .outOfRange
        | c :: _ =>
          .ok { code := code, pattern := compile pat, target := tgt,
                noRedirect := code ≤ 0, isRelativePattern := c = '/' }
  else .error .invalidStatusCode

/-- Models Go `parseRedirectMatchLine`: trim the line, split on single
spaces, require exactly three fields, then run the later stages. -/
def parseRedirectMatchLine (compile : String → Regexp) (s : String) :
    Except ParseErr redirectMatch :=
  match splitSpace (trimSpace s) with
  | [codeStr, pat, tgt] => parseParts compile codeStr pat tgt
  | _ => .error .malformedLine

/-- Projects the error of a parse result (parse results cannot be compared
for equality wholesale, a compiled rule contains functions). -/
def parseErrOf (x : Except ParseErr redirectMatch) : Option ParseErr :=
  match x with
  | .error e => some e
  | .ok _ => none

/-- Extracts the compiled rule of a successful parse. -/
def getRM (x : Except ParseErr redirectMatch) : redirectMatch :=
  match x with
  | .ok r => r
  | .error _ => default



/-- Model of the Go struct `Options` (the `Debug` field only drives logging,
which is not observable in this model but is kept for shape fidelity). -/
structure Options where
  RedirectMatch : List String
  PrimarySubdomain : String
  Debug : Bool
deriving DecidableEq

/-- Model of the Go struct `Engine`.  The `domainValidator` the constructor
installs is always the same function, modelled by the standalone
`domainValidator` below; the logger is debug-only and dropped. -/
structure Engine where
  redirects : List redirectMatch
  options : Options

/-- The `domainValidator` closure installed by `New`:
`!strings.HasSuffix(root, localhost)`. -/
def domainValidator (root : String) : Bool :=
  !(hasSuf root "localhost")

/-- Parses the configured redirect lines in order, failing on the first error
(the loop inside Go `New`). -/
def parseLines (compile : String → Regexp) : List String → Except ParseErr (List redirectMatch)
  | [] => .ok []
  | line :: rest =>
    match parseRedirectMatchLine compile line with
    | .error e => .error e
    | .ok r =>
      match parseLines compile rest with
      | .error e => .error e
      | .ok rs => .ok (r :: rs)

/-- Models Go `New`: compile every rule line, then normalize a non-empty
`PrimarySubdomain` to end with a dot (`www` becomes `www.`). -/
def New (compile : String → Regexp) (opts : Options) : Except ParseErr Engine :=
  match parseLines compile opts.RedirectMatch with
  | .error e => .error e
  | .ok redirects =>
    let opts :=
      if opts.PrimarySubdomain ≠ "" ∧ !(hasSuf opts.PrimarySubdomain ".") then
        { opts with PrimarySubdomain := opts.PrimarySubdomain ++ "." }
      else opts
    .ok { redirects := redirects, options := opts }

/-- The fields of Go `net/url.URL` the engine reads or writes. -/
structure URL where
  scheme : String
  host : String
  path : String
  rawQuery : String
deriving DecidableEq

/-- The request view the engine consumes: method, TLS-presence flag, the
transport-reported `Host`, and the parsed URL. -/
structure RequestView where
  method : String
  tls : Bool
  host : String
  url : URL
deriving DecidableEq

/-- Models `URL.String()` of `net/url` for the fields carried here (no user
info, opaque part or fragment): `scheme:` when a scheme is present, `//host`
when a scheme or host is present, then path and `?query`. -/
def urlString (u : URL) : String :=
  (if u.scheme ≠ "" then u.scheme ++ ":" else "")
    ++ (if u.scheme ≠ "" ∨ u.host ≠ "" then "//" ++ u.host else "")
    ++ u.path
    ++ (if u.rawQuery ≠ "" then "?" ++ u.rawQuery else "")

/-- Models `URL.RequestURI()` of `net/url` for non-opaque URLs: the path
(defaulting to `/`) followed by `?query` when a query is present. -/
def requestURI (u : URL) : String :=
  (if u.path = "" then "/" else u.path)
    ++ (if u.rawQuery ≠ "" then "?" ++ u.rawQuery else "")

/-- Models Go `getScheme`: the URL scheme if set, else inferred from the TLS
flag, always suffixed with `://`. -/
def getScheme (r : RequestView) : String :=
  (if r.url.scheme ≠ "" then r.url.scheme
   else if r.tls then "https" else "http") ++ "://"

/-- Models Go `getHost`: the URL host if non-empty, else the request host. -/
def getHost (r : RequestView) : String :=
  if r.url.host ≠ "" then r.url.host else r.host

/-- First index of `c` in `l`, if any. -/
def firstIdxOf (c : Char) : List Char → Option Nat
  | [] => none
  | x :: t =>
    if x = c then some 0
    else (firstIdxOf c t).map (· + 1)

/-- Last index of `c` in `l`, if any. -/
def lastIdxOf (c : Char) (l : List Char) : Option Nat :=
  (firstIdxOf c l.reverse).map (fun i => l.length - 1 - i)

/-- Models Go `getPort`: the `:port` suffix starting at the first colon,
provided that colon is not the first character. -/
def getPort (hostport : String) : String :=
  match firstIdxOf ':' hostport.data with
  | some i => if i > 0 then ⟨hostport.data.drop i⟩ else ""
  | none => ""

/-- Models `net.SplitHostPort` for non-bracketed hosts: split at the last
colon; no colon, a colon inside the host part, or brackets are errors.
(A bracketed IPv6 host with a port is also treated as an error here; the
engine never sees one in the properties below, and without a port Go errors
on it too.) -/
def splitHostPort (hostport : String) : Option (String × String) :=
  let cs := hostport.data
  if cs.contains '[' ∨ cs.contains ']' then none
  else
    match lastIdxOf ':' cs with
    | none => none
    | some i =>
      if (cs.take i).contains ':' then none
      else some (⟨cs.take i⟩, ⟨cs.drop (i + 1)⟩)

/-- Models Go `getDomain`: strip the port when `SplitHostPort` succeeds, map
every loopback form to `localhost`, otherwise query the public-suffix oracle
`etld` (modelling `publicsuffix.EffectiveTLDPlusOne`), keeping the host
unchanged on lookup failure. -/
def getDomain (etld : String → Option String) (hostport : String) : String :=
  let host :=
    match splitHostPort hostport with
    | some p => p.1
    | none => hostport
  if host = "localhost" ∨ host = "127.0.0.1" ∨ host = "0.0.0.0" ∨ host = "::1"
      ∨ host = "[::1]" ∨ host = "0:0:0:0:0:0:0:0" ∨ host = "0:0:0:0:0:0:0:1" then
    "localhost"
  else
    match etld host with
    | some domain => domain
    | none => host

/-- The outcome of one request evaluation: an external redirect response
(`isAbs` distinguishes the `redirectAbs` path from `http.Redirect`), a
`421 Misdirected Request` error, or handing the (possibly mutated) request
to the next handler. -/
inductive Decision where
  | redirect (isAbs : Bool) (code : Int) (location : String)
  | misdirected (msg : String)
  | next (r : RequestView)
deriving DecidableEq

/-- Sets both host fields of a request (`r.Host` and `r.URL.Host`), as the
canonicalizer does. -/
def setHost (r : RequestView) (h : String) : RequestView :=
  { r with host := h, url := { r.url with host := h } }

/-- The match subject computed at the top of the rule loop: the bare path for
a relative pattern, the full absolute URL otherwise. -/
def matchSubject (rd : redirectMatch) (r : RequestView) : String :=
  if rd.isRelativePattern then r.url.path
  else getScheme r ++ getHost r ++ requestURI r.url

/-- The rule loop of Go `Engine.rewrite`, evaluated in declaration order.
`resolve` models `r.URL.Parse` (resolving a possibly relative reference
against the request URL); a resolution error yields the misdirected-request
response. -/
def rewriteRules (resolve : URL → String → Except String URL)
    (r : RequestView) : List redirectMatch → Decision
  | [] => .next r
  | rd :: rest =>
    let src := matchSubject rd r
    let res := rd.matchAndReplace src
    if res.2 then
      let target := res.1
      if target = src then .next r
      else if rd.noRedirect then
        match resolve r.url target with
        | .error e => .misdirected e
        | .ok u => .next { r with url := u }
      else if !rd.isRelativePattern then .redirect true rd.code target
      else .redirect false rd.code target
    else rewriteRules resolve r rest

/-- Models Go `Engine.rewrite`: the subdomain canonicalizer followed by the
rule loop.  `etld` is the public-suffix oracle of `getDomain`. -/
def Engine.rewrite (etld : String → Option String)
    (resolve : URL → String → Except String URL)
    (e : Engine) (r : RequestView) : Decision :=
  if e.options.PrimarySubdomain ≠ "" then
    let primarySubdomain := e.options.PrimarySubdomain
    let hostport := getHost r
    let root := getDomain etld hostport
    if domainValidator root then
      let root := root ++ getPort hostport
      let subdomain := stripSuf hostport root
      if subdomain = "" then
        let newHost := primarySubdomain ++ root
        let r := setHost r newHost
        .redirect false 301 (urlString r.url)
      else if subdomain = primarySubdomain then
        let rootHost := stripPre hostport subdomain
        rewriteRules resolve (setHost r rootHost) e.redirects
      else rewriteRules resolve r e.redirects
    else rewriteRules resolve r e.redirects
  else rewriteRules resolve r e.redirects

/-- Looks a key up in a header (association list), first binding wins, as
`http.Header` map access on the canonical key. -/
def headerGet (h : List (String × String)) (k : String) : Option String :=
  match h with
  | [] => none
  | (k2, v) :: t => if k2 = k then some v else headerGet t k

/-- Models `http.Header.Set`: replace every binding of `k` by the new one. -/
def headerSet (h : List (String × String)) (k v : String) : List (String × String) :=
  (k, v) :: h.filter (fun p => p.1 ≠ k)

/-- The observable response state `redirectAbs` builds: headers, the status
code passed to `WriteHeader`, and the body written so far. -/
structure ResponseWriter where
  header : List (String × String)
  statusCode : Option Int
  body : String
deriving DecidableEq

/-- Models `template.HTMLEscapeString` on one character: `<`, `>`, `&`, the
single quote and the double quote become entities. -/
def htmlEscapeChar (c : Char) : String :=
  if c = '<' then "&lt;"
  else if c = '>' then "&gt;"
  else if c = '&' then "&amp;"
  else if c = '\'' then "&#39;"
  else if c = '"' then "&#34;"
  else String.singleton c

/-- Models `template.HTMLEscapeString`. -/
def htmlEscapeString (s : String) : String :=
  s.data.foldl (fun acc c => acc ++ htmlEscapeChar c) ""

/-- Models `http.StatusText` for the status codes exercised in this
development (Go returns the empty string for unknown codes). -/
def statusText (code : Int) : String :=
  if code = 301 then "Moved Permanently"
  else if code = 302 then "Found"
  else if code = 303 then "See Other"
  else if code = 307 then "Temporary Redirect"
  else if code = 308 then "Permanent Redirect"
  else ""

/-- Models Go `redirectAbs`: set `Location`; set `Content-Type` when none was
present and the method is GET or HEAD; write the status; for GET without a
pre-existing `Content-Type`, write the anchor body (`fmt.Fprintln` appends a
newline). -/
def redirectAbs (w : ResponseWriter) (method url : String) (code : Int) : ResponseWriter :=
  let hadCT := (headerGet w.header "Content-Type").isSome
  let h := headerSet w.header "Location" url
  let h :=
    if !hadCT && (method = "GET" || method = "HEAD") then
      headerSet h "Content-Type" "text/html; charset=utf-8"
    else h
  let w := { w with header := h, statusCode := some code }
  if !hadCT && method = "GET" then
    { w with body := w.body ++ "<a href=\"" ++ htmlEscapeString url ++ "\">"
        ++ statusText code ++ "</a>.\n" ++ "\n" }
  else w

/-- Formalizes the spec's words for claim C6: the tokens of a line under
general whitespace separation (maximal non-whitespace runs). -/
def specWhitespaceTokens (s : String) : List String :=
  ((splitChar ' ' (s.data.map (fun c => if goIsSpace c then ' ' else c))).map
      (fun l => (⟨l⟩ : String))).filter (fun t => t ≠ "")

/-- A public-suffix oracle agreeing with `publicsuffix.EffectiveTLDPlusOne`
on the hosts exercised by the scenarios (`mydomain.com` is the registrable
domain of itself and of `www.mydomain.com`). -/
def etldDemo (host : String) : Option String :=
  if host = "mydomain.com" ∨ host = "www.mydomain.com" then some "mydomain.com"
  else none

/-- A URL-resolution oracle that always fails; used only where resolution is
never reached. -/
def resolveNone (_ : URL) (_ : String) : Except String URL :=
  .error "unused"


/-! ### Concrete fixtures used by witnesses and counterexamples -/

/-- Request of the bare-root canonicalization scenario: host
`mydomain.com:8080`, path `/about`. -/
def req4 : RequestView :=
  { method := "GET", tls := false, host := "mydomain.com:8080",
    url := { scheme := "", host := "", path := "/about", rawQuery := "" } }

/-- Request of the primary-subdomain normalization scenario: host
`www.mydomain.com:8080`, path `/about`. -/
def req5 : RequestView :=
  { method := "GET", tls := false, host := "www.mydomain.com:8080",
    url := { scheme := "", host := "", path := "/about", rawQuery := "" } }

/-- A request whose path is `/a`, used by rule-loop fixtures. -/
def reqA : RequestView :=
  { method := "GET", tls := false, host := "example.com",
    url := { scheme := "", host := "", path := "/a", rawQuery := "" } }

/-- Projects the normalized primary subdomain out of an engine
construction. -/
def primaryOf (x : Except ParseErr Engine) : Option String :=
  match x with
  | .ok e => some e.options.PrimarySubdomain
  | .error _ => none

/-- A response writer that already carries a `Content-Type` header. -/
def wCT : ResponseWriter :=
  { header := [("Content-Type", "text/plain")], statusCode := none, body := "" }

/-! ### Shared lemmas -/

/-- A successful `parseParts` yields a rule whose pattern does not match its
literal target (the compile-time loop check). -/
theorem parseParts_ok_no_loop (compile : String → Regexp) (codeStr pat tgt : String)
    (r : redirectMatch) (h : parseParts compile codeStr pat tgt = .ok r) :
    r.pattern.matchString r.target = false := by
  unfold parseParts at h
  split at h
  · split at h
    · exact absurd h (by simp)
    · split at h
      · exact absurd h (by simp)
      · rename_i hmatch
        split at h
        · exact absurd h (by simp)
        · obtain rfl : _ = r := Except.ok.inj h
          simpa using hmatch
  · exact absurd h (by simp)

/-- A successful `parseRedirectMatchLine` yields a rule whose pattern does
not match its literal target. -/
theorem parse_ok_no_loop (compile : String → Regexp) (s : String)
    (r : redirectMatch) (h : parseRedirectMatchLine compile s = .ok r) :
    r.pattern.matchString r.target = false := by
  unfold parseRedirectMatchLine at h
  split at h
  · exact parseParts_ok_no_loop _ _ _ _ _ h
  · exact absurd h (by simp)

/-- `containsSub` with an empty needle holds for every haystack (the empty
regular expression matches every string). -/
theorem containsSub_nil (l : List Char) : containsSub [] l = true := by
  induction l with
  | nil => rfl
  | cons c t ih => simp [containsSub, ih, List.isPrefixOf]

/-- `parseParts` never reports the malformed-line error; that error belongs
to the tokenization stage alone. -/
theorem parseParts_ne_malformed (compile : String → Regexp) (codeStr pat tgt : String) :
    parseErrOf (parseParts compile codeStr pat tgt) ≠ some ParseErr.malformedLine := by
  unfold parseParts
  split
  · split
    · simp [parseErrOf]
    · split
      · simp [parseErrOf]
      · split
        · simp [parseErrOf]
        · simp [parseErrOf]
  · simp [parseErrOf]

/-! ### Claims -/

/-- C1: if the compiled pattern matches the literal target, compilation of
the rule line fails with the redirect-loop error (for any line that reached
the loop check, i.e. whose code token passed the digit and `Atoi` stages);
consequently, every successfully compiled rule satisfies
`matcher.match(target) = false`.  The check sits in `parseParts`, executed
once per rule at compile time, not in the request path `rewriteRules`. -/
theorem parse_loop_check :
    (∀ (compile : String → Regexp) (codeStr pat tgt : String),
        codeStr.data.all isDigit = true →
        (atoiDigits codeStr).isSome = true →
        (compile pat).matchString tgt = true →
        parseParts compile codeStr pat tgt = .error .redirectLoop)
    ∧ ∀ (compile : String → Regexp) (s : String) (r : redirectMatch),
        parseRedirectMatchLine compile s = .ok r →
        r.pattern.matchString r.target = false := by
  constructor
  · intro compile codeStr pat tgt h1 h2 h3
    unfold parseParts
    rw [if_pos h1]
    obtain ⟨code, hc⟩ := Option.isSome_iff_exists.mp h2
    rw [hc]
    simp [h3]
  · exact parse_ok_no_loop

/-- Witness for C1, at the concrete rule lines `301 ab xaby` (pattern `ab`
occurs in the target, so the loop is reported) and `301 ab /x` (compiles,
and its pattern does not match its target). -/
theorem parse_loop_check_witness :
    parseParts regexpLit "301" "ab" "xaby" = .error .redirectLoop
    ∧ (getRM (parseRedirectMatchLine regexpLit "301 ab /x")).pattern.matchString
        (getRM (parseRedirectMatchLine regexpLit "301 ab /x")).target = false := by
  constructor
  · exact parse_loop_check.1 regexpLit "301" "ab" "xaby" (by decide) (by decide) (by decide)
  · exact parse_loop_check.2 regexpLit "301 ab /x"
      (getRM (parseRedirectMatchLine regexpLit "301 ab /x")) rfl

/-- C3 counterexample: the rule line `301 aa a` compiles (its pattern `aa`
does not occur in the literal target `a`), yet on input `aaa` its
match-and-replace produces `aa` — the string obtained by substituting into
the replacement template — and the pattern matches that output again.  The
loop check inspects only the literal target, not every producible output. -/
theorem rewrite_not_idempotent_cex :
    parseErrOf (parseRedirectMatchLine regexpLit "301 aa a") = none
    ∧ (getRM (parseRedirectMatchLine regexpLit "301 aa a")).matchAndReplace "aaa" = ("aa", true)
    ∧ (getRM (parseRedirectMatchLine regexpLit "301 aa a")).pattern.matchString "aa" = true := by
  exact ⟨by decide, by decide, by decide⟩

/-- C3 (amended): for every successfully compiled rule, re-applying the rule
to its own output cannot match again whenever that output is exactly the
rule's literal target string (the general statement, for arbitrary outputs
of the substitution, is false — see the counterexample). -/
theorem rewrite_idempotent_on_literal_target (compile : String → Regexp)
    (s src out : String) (r : redirectMatch)
    (h1 : parseRedirectMatchLine compile s = .ok r)
    (_h2 : r.matchAndReplace src = (out, true))
    (h3 : out = r.target) :
    r.pattern.matchString out = false := by
  rw [h3]
  exact parse_ok_no_loop compile s r h1

/-- Witness for the amended C3: rule `301 ab /x` on input `ab` produces its
literal target `/x`, which its pattern does not match. -/
theorem rewrite_idempotent_on_literal_target_witness :
    (getRM (parseRedirectMatchLine regexpLit "301 ab /x")).pattern.matchString "/x" = false :=
  rewrite_idempotent_on_literal_target regexpLit "301 ab /x" "ab" "/x"
    (getRM (parseRedirectMatchLine regexpLit "301 ab /x")) rfl (by decide) rfl

/-- C9: when a rule's pattern matches the subject but the substitution
produces the empty string, `matchAndReplace` reports no match, the rule loop
falls through to the remaining rules, and with no remaining rule the request
reaches the next handler unchanged. -/
theorem empty_substitution_fallthrough (resolve : URL → String → Except String URL)
    (r : RequestView) (rd : redirectMatch) (rest : List redirectMatch)
    (h1 : rd.pattern.matchString (matchSubject rd r) = true)
    (h2 : rd.pattern.replaceAllString (matchSubject rd r) rd.target = "") :
    rd.matchAndReplace (matchSubject rd r) = ("", false)
    ∧ rewriteRules resolve r (rd :: rest) = rewriteRules resolve r rest
    ∧ rewriteRules resolve r [rd] = .next r := by
  have hm : rd.matchAndReplace (matchSubject rd r) = ("", false) := by
    unfold redirectMatch.matchAndReplace
    rw [if_pos h1]
    simp [h2]
  refine ⟨hm, ?_, ?_⟩
  · conv_lhs => rw [rewriteRules]
    rw [hm]
    simp
  · conv_lhs => rw [rewriteRules]
    rw [hm]
    simp [rewriteRules]

/-- Witness for C9: rule `301 /a $9` (pattern `/a`, template `$9`, which
expands to the empty string as the pattern has no capture group 9) on the
request with path `/a`. -/
theorem empty_substitution_fallthrough_witness :
    (getRM (parseRedirectMatchLine regexpLit "301 /a $9")).matchAndReplace
        (matchSubject (getRM (parseRedirectMatchLine regexpLit "301 /a $9")) reqA) = ("", false)
    ∧ rewriteRules resolveNone reqA
        [getRM (parseRedirectMatchLine regexpLit "301 /a $9"),
          getRM (parseRedirectMatchLine regexpLit "301 /zz /x")]
      = rewriteRules resolveNone reqA [getRM (parseRedirectMatchLine regexpLit "301 /zz /x")]
    ∧ rewriteRules resolveNone reqA [getRM (parseRedirectMatchLine regexpLit "301 /a $9")]
      = .next reqA :=
  empty_substitution_fallthrough resolveNone reqA
    (getRM (parseRedirectMatchLine regexpLit "301 /a $9"))
    [getRM (parseRedirectMatchLine regexpLit "301 /zz /x")]
    (by decide) (by decide)

/-- C10: compiling a rule line never reaches the out-of-range read of
`PATTERN`'s first character, for any pattern-compilation oracle under which
the empty pattern matches every string (as Go's empty regular expression
does): an empty `PATTERN` token always fails the loop check against its
target first. -/
theorem parse_no_out_of_range (compile : String → Regexp) (s : String)
    (h : ∀ t, (compile "").matchString t = true) :
    parseErrOf (parseRedirectMatchLine compile s) ≠ some ParseErr.outOfRange := by
  unfold parseRedirectMatchLine
  split
  · rename_i codeStr pat tgt heq
    unfold parseParts
    split
    · split
      · simp [parseErrOf]
      · split
        · simp [parseErrOf]
        · rename_i hmatch
          split
          · rename_i hnil
            cases pat with
            | mk d =>
              simp only at hnil
              subst hnil
              exact absurd (h tgt) hmatch
          · simp [parseErrOf]
    · simp [parseErrOf]
  · simp [parseErrOf]

/-- Witness for C10: the line `301  /b` (two spaces) tokenizes with an empty
`PATTERN` field; under the literal-pattern oracle the empty pattern matches
everything, and compilation reports the loop error, never an out-of-range
access. -/
theorem parse_no_out_of_range_witness :
    parseErrOf (parseRedirectMatchLine regexpLit "301  /b") ≠ some ParseErr.outOfRange :=
  parse_no_out_of_range regexpLit "301  /b" (fun t => containsSub_nil t.data)

/-- C2 counterexample: on the request with path `/a`, the patterns of the
compiled rules `301 /a $9` and `301 /a /b` both match the match subject
`/a`; yet the first rule's substitution expands to the empty string, so the
loop moves past it and the *second* rule's redirect to `/b` is the
observable effect. -/
theorem first_match_wins_cex :
    parseErrOf (parseRedirectMatchLine regexpLit "301 /a $9") = none
    ∧ parseErrOf (parseRedirectMatchLine regexpLit "301 /a /b") = none
    ∧ (getRM (parseRedirectMatchLine regexpLit "301 /a $9")).pattern.matchString
        (matchSubject (getRM (parseRedirectMatchLine regexpLit "301 /a $9")) reqA) = true
    ∧ (getRM (parseRedirectMatchLine regexpLit "301 /a /b")).pattern.matchString
        (matchSubject (getRM (parseRedirectMatchLine regexpLit "301 /a /b")) reqA) = true
    ∧ rewriteRules resolveNone reqA
        [getRM (parseRedirectMatchLine regexpLit "301 /a $9"),
          getRM (parseRedirectMatchLine regexpLit "301 /a /b")]
      = .redirect false 301 "/b" := by
  exact ⟨by decide, by decide, by decide, by decide, by decide⟩

/-- C2 (amended): when the first rule's match-and-replace succeeds on its
match subject (pattern matches and the substitution is non-empty), the
decision is the first rule's effect alone: it is identical for every
possible list of remaining rules, which are therefore never evaluated. -/
theorem first_match_wins (resolve : URL → String → Except String URL)
    (r : RequestView) (rd : redirectMatch) (rest rest2 : List redirectMatch)
    (h : (rd.matchAndReplace (matchSubject rd r)).2 = true) :
    rewriteRules resolve r (rd :: rest) = rewriteRules resolve r (rd :: rest2) := by
  conv_lhs => rw [rewriteRules]
  conv_rhs => rw [rewriteRules]
  rw [if_pos h, if_pos h]

/-- Witness for the amended C2: the matching rule `301 /a /b` gives the same
decision whether a second rule follows it or not. -/
theorem first_match_wins_witness :
    rewriteRules resolveNone reqA
        [getRM (parseRedirectMatchLine regexpLit "301 /a /b"),
          getRM (parseRedirectMatchLine regexpLit "301 aa a")]
      = rewriteRules resolveNone reqA [getRM (parseRedirectMatchLine regexpLit "301 /a /b")] :=
  first_match_wins resolveNone reqA (getRM (parseRedirectMatchLine regexpLit "301 /a /b"))
    [getRM (parseRedirectMatchLine regexpLit "301 aa a")] [] (by decide)

/-- C6 counterexample: the line `3\t01 /a /b` has four whitespace-separated
tokens, yet tokenization accepts it (it has exactly three single-space
fields) and compilation fails with the status-code error rather than the
malformed-line error; conversely the line `301\t/a\t/b` has exactly three
whitespace-separated tokens, yet compilation fails with the malformed-line
error: the code splits on single spaces, not on whitespace. -/
theorem tokenization_cex :
    (specWhitespaceTokens "3\t01 /a /b").length = 4
    ∧ parseErrOf (parseRedirectMatchLine regexpLit "3\t01 /a /b")
        = some ParseErr.invalidStatusCode
    ∧ (specWhitespaceTokens "301\t/a\t/b").length = 3
    ∧ parseErrOf (parseRedirectMatchLine regexpLit "301\t/a\t/b")
        = some ParseErr.malformedLine := by
  exact ⟨by decide, by decide, by decide, by decide⟩

/-- C6 (amended): tokenization splits the line, after trimming surrounding
whitespace, on single spaces; the malformed-line error is reported exactly
when the resulting field count differs from three. -/
theorem tokenization_three_fields (compile : String → Regexp) (s : String) :
    parseErrOf (parseRedirectMatchLine compile s) = some ParseErr.malformedLine
    ↔ (splitSpace (trimSpace s)).length ≠ 3 := by
  unfold parseRedirectMatchLine
  split
  · rename_i codeStr pat tgt heq
    constructor
    · intro hc
      exact absurd hc (parseParts_ne_malformed compile codeStr pat tgt)
    · intro hl
      exact absurd (by rw [heq]; rfl) hl
  · rename_i hne
    constructor
    · intro _
      intro hl
      obtain ⟨a, b, c, habc⟩ := List.length_eq_three.mp hl
      exact hne a b c habc
    · intro _
      simp [parseErrOf]

/-- If no rule's pattern matches its match subject, the rule loop passes the
request through untouched. -/
theorem rewriteRules_no_match (resolve : URL → String → Except String URL)
    (r : RequestView) (rds : List redirectMatch)
    (h : ∀ rd ∈ rds, rd.pattern.matchString (matchSubject rd r) = false) :
    rewriteRules resolve r rds = .next r := by
  induction rds with
  | nil => rfl
  | cons rd rest ih =>
    have hm : rd.matchAndReplace (matchSubject rd r) = ("", false) := by
      unfold redirectMatch.matchAndReplace
      rw [h rd (by simp)]
      simp
    conv_lhs => rw [rewriteRules]
    rw [hm]
    simpa using ih (fun rd2 h2 => h rd2 (by simp [h2]))

/-- C8: with no primary subdomain configured and no rule pattern matching,
the engine's decision is to forward exactly the input request: no field of
the request view is mutated. -/
theorem passthrough_frame (etld : String → Option String)
    (resolve : URL → String → Except String URL) (e : Engine) (r : RequestView)
    (h1 : e.options.PrimarySubdomain = "")
    (h2 : ∀ rd ∈ e.redirects, rd.pattern.matchString (matchSubject rd r) = false) :
    Engine.rewrite etld resolve e r = .next r := by
  unfold Engine.rewrite
  rw [if_neg (by simp [h1])]
  exact rewriteRules_no_match resolve r e.redirects h2

/-- Witness for C8: an engine with one non-matching rule (`/zz` against path
`/a`) and no primary subdomain forwards the request unchanged. -/
theorem passthrough_frame_witness :
    Engine.rewrite etldDemo resolveNone
      { redirects := [getRM (parseRedirectMatchLine regexpLit "301 /zz /x")],
        options := { RedirectMatch := ["301 /zz /x"], PrimarySubdomain := "", Debug := false } }
      reqA
    = .next reqA := by
  apply passthrough_frame
  · rfl
  · intro rd hrd
    rw [List.mem_singleton] at hrd
    subst hrd
    decide

/-- C4: with primary subdomain `www` (normalized by `New` to `www.`), a
request on the bare root `mydomain.com:8080` for `/about` is answered by a
301 redirect whose location carries host `www.mydomain.com:8080` and the
same path, whatever the rule list — the decision is the redirect itself, so
no rule evaluation follows.  `etld` is only constrained at the host the
scenario touches, where `publicsuffix.EffectiveTLDPlusOne` returns
`mydomain.com`. -/
theorem bare_root_redirect :
    (∀ compile : String → Regexp,
        primaryOf (New compile
          { RedirectMatch := [], PrimarySubdomain := "www", Debug := false }) = some "www.")
    ∧ ∀ (etld : String → Option String) (resolve : URL → String → Except String URL)
        (rds : List redirectMatch),
        etld "mydomain.com" = some "mydomain.com" →
        Engine.rewrite etld resolve
          { redirects := rds,
            options := { RedirectMatch := [], PrimarySubdomain := "www.", Debug := false } }
          req4
        = .redirect false 301 "//www.mydomain.com:8080/about" := by
  constructor
  · intro compile
    rfl
  · intro etld resolve rds h
    have hd : getDomain etld (getHost req4) = "mydomain.com" := by
      unfold getDomain
      simp only [show splitHostPort (getHost req4) = some ("mydomain.com", "8080") from by decide]
      rw [if_neg (by decide), h]
    simp only [Engine.rewrite, hd]
    rw [if_pos (by decide), if_pos (by decide), if_pos (by decide)]
    rfl

/-- Witness for C4's scenario conjunct, with the concrete oracle `etldDemo`. -/
theorem bare_root_redirect_witness :
    Engine.rewrite etldDemo resolveNone
      { redirects := [],
        options := { RedirectMatch := [], PrimarySubdomain := "www.", Debug := false } }
      req4
    = .redirect false 301 "//www.mydomain.com:8080/about" :=
  bare_root_redirect.2 etldDemo resolveNone [] (by decide)

/-- C5: a request already on the primary subdomain (`www.mydomain.com:8080`)
has both host fields normalized to the bare root `mydomain.com:8080`
(port preserved); the decision of this step is not a redirect but whatever
the rule loop decides on the modified request — rule evaluation continues. -/
theorem primary_subdomain_normalization (etld : String → Option String)
    (resolve : URL → String → Except String URL) (rds : List redirectMatch)
    (h : etld "www.mydomain.com" = some "mydomain.com") :
    Engine.rewrite etld resolve
      { redirects := rds,
        options := { RedirectMatch := [], PrimarySubdomain := "www.", Debug := false } }
      req5
    = rewriteRules resolve (setHost req5 "mydomain.com:8080") rds
    ∧ (setHost req5 "mydomain.com:8080").host = "mydomain.com:8080"
    ∧ (setHost req5 "mydomain.com:8080").url.host = "mydomain.com:8080" := by
  refine ⟨?_, rfl, rfl⟩
  have hd : getDomain etld (getHost req5) = "mydomain.com" := by
    unfold getDomain
    simp only [show splitHostPort (getHost req5) = some ("www.mydomain.com", "8080") from by decide]
    rw [if_neg (by decide), h]
  simp only [Engine.rewrite, hd]
  rw [if_pos (by decide), if_pos (by decide), if_neg (by decide), if_pos (by decide)]
  rfl

/-- Witness for C5, with the concrete oracle `etldDemo` and an empty rule
list. -/
theorem primary_subdomain_normalization_witness :
    Engine.rewrite etldDemo resolveNone
      { redirects := [],
        options := { RedirectMatch := [], PrimarySubdomain := "www.", Debug := false } }
      req5
    = rewriteRules resolveNone (setHost req5 "mydomain.com:8080") []
    ∧ (setHost req5 "mydomain.com:8080").host = "mydomain.com:8080"
    ∧ (setHost req5 "mydomain.com:8080").url.host = "mydomain.com:8080" :=
  primary_subdomain_normalization etldDemo resolveNone [] (by decide)

/-- Looking up a key that was just set returns the new value. -/
theorem headerGet_set_self (h : List (String × String)) (k v : String) :
    headerGet (headerSet h k v) k = some v := by
  simp [headerGet, headerSet]

/-- Filtering out a different key does not change a lookup. -/
theorem headerGet_filter_ne (h : List (String × String)) (k k2 : String)
    (hne : k2 ≠ k) :
    headerGet (h.filter (fun p => p.1 ≠ k)) k2 = headerGet h k2 := by
  induction h with
  | nil => rfl
  | cons p t ih =>
    by_cases hp : p.1 = k
    · rw [List.filter_cons_of_neg (by simp [hp]), headerGet,
        if_neg (fun hc => hne (hc.symm.trans hp))]
      exact ih
    · rw [List.filter_cons_of_pos (by simp [hp]), headerGet, headerGet]
      by_cases hp2 : p.1 = k2
      · rw [if_pos hp2, if_pos hp2]
      · rw [if_neg hp2, if_neg hp2]
        exact ih

/-- Setting one key does not change the lookup of another. -/
theorem headerGet_set_ne (h : List (String × String)) (k v k2 : String)
    (hne : k2 ≠ k) :
    headerGet (headerSet h k v) k2 = headerGet h k2 := by
  unfold headerSet
  rw [headerGet]
  rw [if_neg (fun hc => hne hc.symm)]
  exact headerGet_filter_ne h k k2 hne

/-- C7 (amended): `redirectAbs` sets `Location` to the target and writes the
status code; when no `Content-Type` was present and the method is GET or
HEAD it sets `Content-Type` to `text/html; charset=utf-8` (otherwise the
prior header stands); and it writes the anchor body exactly when the method
is GET *and* no `Content-Type` was already set — a GET with a pre-existing
`Content-Type` gets no body (see the counterexample for the unamended
claim). -/
theorem redirectAbs_spec (w : ResponseWriter) (method url : String) (code : Int) :
    headerGet (redirectAbs w method url code).header "Location" = some url
    ∧ (redirectAbs w method url code).statusCode = some code
    ∧ headerGet (redirectAbs w method url code).header "Content-Type"
      = (if (headerGet w.header "Content-Type").isSome = false
            ∧ (method = "GET" ∨ method = "HEAD")
         then some "text/html; charset=utf-8"
         else headerGet w.header "Content-Type")
    ∧ (redirectAbs w method url code).body
      = w.body ++ (if (headerGet w.header "Content-Type").isSome = false ∧ method = "GET"
         then "<a href=\"" ++ htmlEscapeString url ++ "\">" ++ statusText code
           ++ "</a>.\n" ++ "\n"
         else "") := by
  unfold redirectAbs
  by_cases hct : (headerGet w.header "Content-Type").isSome = true
  · have hLoc : ("Location" : String) ≠ "Content-Type" := by decide
    simp [hct, headerGet_set_ne, headerGet_set_self, hLoc]
  · have hct2 : (headerGet w.header "Content-Type").isSome = false :=
      Bool.not_eq_true _ ▸ hct
    by_cases hg : method = "GET"
    · have hLoc : ("Content-Type" : String) ≠ "Location" := by decide
      simp [hct2, hg, headerGet_set_ne, headerGet_set_self, hLoc, String.append_assoc]
    · by_cases hh : method = "HEAD"
      · have hLoc : ("Content-Type" : String) ≠ "Location" := by decide
        simp [hct2, hg, hh, headerGet_set_ne, headerGet_set_self, hLoc]
      · have hLoc : ("Location" : String) ≠ "Content-Type" := by decide
        have hget : headerGet (headerSet w.header "Location" url) "Content-Type"
            = headerGet w.header "Content-Type" :=
          headerGet_set_ne w.header "Location" url "Content-Type" hLoc.symm
        simp [hct2, hg, hh, headerGet_set_ne, headerGet_set_self, hLoc, hget]

/-- C7 counterexample: for a GET request whose response writer already
carries a `Content-Type` header, `redirectAbs` writes no body at all, while
the claim as stated promises the anchor body for every GET. -/
theorem redirectAbs_body_cex :
    (redirectAbs wCT "GET" "/x" 301).body = ""
    ∧ (redirectAbs wCT "GET" "/x" 301).body
      ≠ "<a href=\"" ++ htmlEscapeString "/x" ++ "\">" ++ statusText 301 ++ "</a>.\n" ++ "\n" := by
  exact ⟨by decide, by decide⟩
